import Mathlib

/-!
Verification of core properties of a distributed vector-search engine
(consensus-driven collection catalog plus per-segment update path).

The Rust sources are shallowly embedded: byte buffers are `List Nat`,
machine integers are `Nat` (no arithmetic in the verified paths can
overflow in the modelled regimes; regime bounds appear as hypotheses),
fallible code returns `Except`/`Option`, and `Option` is additionally
used where the Rust code can panic (`none` marks the panic).
File-system and network I/O are abstracted: files are passed in by
contents and I/O itself is assumed to succeed, so that the remaining
logic is exactly the logic of the source.
-/

namespace MmapModel

/-- Rust `HEADER_SIZE` from `segment/src/vector_storage/mmap_vectors.rs`. -/
def HEADER_SIZE : Nat := 4

/-- Rust `VECTORS_HEADER = b"data"` (byte values). -/
def VECTORS_HEADER : List Nat := [100, 97, 116, 97]

/-- Rust `DELETED_HEADER = b"drop"` (byte values). -/
def DELETED_HEADER : List Nat := [100, 114, 111, 112]

/-- Rust `OperationError` from `segment/src/entry/entry_point.rs`.
Payload fields that are only interpolated into messages are kept as the
strings/numbers the Rust enum stores. -/
inductive OperationError where
  | WrongVector (expected_dim : Nat) (received_dim : Nat)
  | VectorNameNotExists (received_name : String)
  | MissedVectorName (received_name : String)
  | PointIdError (missed_point_id : Nat)
  | TypeError (field_name : String) (expected_type : String)
  | TypeInferenceError (field_name : String)
  | ServiceError (description : String)
  | Cancelled (description : String)
deriving DecidableEq, Repr

/-- Rust `MmapVectors` from `mmap_vectors.rs`: the two mmapped files are held by
contents (`mmap` = vectors file bytes, `deleted` = deleted-flags file bytes,
both including their 4-byte headers). `VectorElementType` is `f32`, so one
element occupies 4 bytes. -/
structure MmapVectors where
  dim : Nat
  num_vectors : Nat
  mmap : List Nat
  deleted : List Nat
  deleted_count : Nat
deriving DecidableEq, Repr

/-- Rust `ensure_mmap_file_exists`: a missing file is created holding exactly the
4-byte magic header; an existing file is left untouched and its contents are
not inspected. -/
def ensure_mmap_file_exists (file : Option (List Nat)) (header : List Nat) : List Nat :=
  match file with
  | some contents => contents
  | none => header

/-- Rust `MmapVectors::open(vectors_path, deleted_path, dim)`. The two files are
given by contents (`none` = absent). I/O errors are abstracted away (all
reads/writes succeed), which is the only source of `Err` in the Rust code:
the function performs no validation of existing file contents. Faithful to
the source, `num_vectors = (len - HEADER_SIZE) / dim / 4` and
`deleted_count` sums the bytes after the header of the deleted file.
The model is meaningful for `0 < dim` and file lengths `≥ HEADER_SIZE`
(outside that regime the Rust code would divide by zero / underflow). -/
def mmapOpen (vectors_file deleted_file : Option (List Nat)) (dim : Nat) :
    Except OperationError MmapVectors :=
  let mmap := ensure_mmap_file_exists vectors_file VECTORS_HEADER
  let deleted := ensure_mmap_file_exists deleted_file DELETED_HEADER
  let num_vectors := (mmap.length - HEADER_SIZE) / dim / 4
  let deleted_count := (deleted.drop HEADER_SIZE).sum
  Except.ok
    { dim := dim, num_vectors := num_vectors, mmap := mmap,
      deleted := deleted, deleted_count := deleted_count }

/-- Rust `MmapVectors::raw_size`. -/
def MmapVectors.raw_size (v : MmapVectors) : Nat := v.dim * 4

/-- Rust `MmapVectors::data_offset(key)`: bounds-check against `num_vectors`,
otherwise `key * dim * 4 + HEADER_SIZE`. -/
def MmapVectors.data_offset (v : MmapVectors) (key : Nat) : Option Nat :=
  let vector_data_length := v.dim * 4
  let offset := key * vector_data_length + HEADER_SIZE
  if v.num_vectors ≤ key then none else some offset

/-- Rust `MmapVectors::raw_vector_offset(offset)`: the byte slice
`mmap[offset..offset + raw_size]` reinterpreted as `dim` elements. The Rust
slice indexing panics when the range exceeds the mapping; `none` models that
panic (unreachable for offsets produced by `data_offset` on a state built by
`open`). -/
def MmapVectors.raw_vector_offset (v : MmapVectors) (offset : Nat) : Option (List Nat) :=
  if offset + v.raw_size ≤ v.mmap.length then
    some ((v.mmap.drop offset).take v.raw_size)
  else none

/-- Rust `MmapVectors::raw_vector(key)`. -/
def MmapVectors.raw_vector (v : MmapVectors) (key : Nat) : Option (List Nat) :=
  (v.data_offset key).bind (fun offset => v.raw_vector_offset offset)

/-- Rust `MmapVectors::check_deleted`: byte at `HEADER_SIZE + key`, `none` when out
of range of the deleted mapping. -/
def MmapVectors.check_deleted (v : MmapVectors) (key : Nat) : Option Bool :=
  (v.deleted[HEADER_SIZE + key]?).map (fun x => 0 < x)

/-- Rust `MmapVectors::delete(key)`: in range, the deletion byte is fetched with
`.unwrap()` (panic modelled as `none`) and set to `1`; `deleted_count` is
incremented only on the `0 → 1` transition. Out of range the call is a
silent no-op. The Rust function always returns `Ok(())`; the state after the
call is the interesting output, so the model returns the new state. -/
def MmapVectors.delete (v : MmapVectors) (key : Nat) : Option MmapVectors :=
  if key < v.num_vectors then
    match v.deleted[key + HEADER_SIZE]? with
    | none => none
    | some flag =>
      if flag = 0 then
        some { v with
                deleted := v.deleted.set (key + HEADER_SIZE) 1,
                deleted_count := v.deleted_count + 1 }
      else
        some v
  else
    some v

/-- States built by `open` satisfy the mapping-length bound needed by
`raw_vector`: all `num_vectors` rows fit after the header. -/
theorem mmapOpen_length_invariant (vf df : Option (List Nat)) (dim : Nat)
    (v : MmapVectors) (hdim : 0 < dim) (hv : mmapOpen vf df dim = Except.ok v)
    (hpos : 0 < v.num_vectors) :
    v.num_vectors * (v.dim * 4) + HEADER_SIZE ≤ v.mmap.length := by
  simp only [mmapOpen, Except.ok.injEq] at hv
  subst hv
  dsimp only at hpos ⊢
  rw [Nat.div_div_eq_div_mul] at hpos ⊢
  set L := (ensure_mmap_file_exists vf VECTORS_HEADER).length with hL
  have hmul : (L - HEADER_SIZE) / (dim * 4) * (dim * 4) ≤ L - HEADER_SIZE :=
    Nat.div_mul_le_self _ _
  have hd4 : 0 < dim * 4 := by omega
  have hfit : dim * 4 ≤ L - HEADER_SIZE := by
    by_contra hcon
    push_neg at hcon
    have := Nat.div_eq_of_lt hcon
    omega
  omega

/-- C7: `data_offset(key)` is `none` exactly when `key ≥ num_vectors`, and
otherwise returns `key × dim × 4 + HEADER_SIZE`; consequently
`raw_vector(num_vectors − 1)` returns a vector slice whenever
`num_vectors > 0`. The hypothesis is the mapping-length bound that `open`
establishes (`mmapOpen_length_invariant`), needed only for the `raw_vector`
slice to be in range. -/
theorem data_offset_spec (v : MmapVectors) (key : Nat)
    (hwf : v.num_vectors * (v.dim * 4) + HEADER_SIZE ≤ v.mmap.length) :
    (v.data_offset key = none ↔ v.num_vectors ≤ key) ∧
    (key < v.num_vectors →
      v.data_offset key = some (key * (v.dim * 4) + HEADER_SIZE)) ∧
    (0 < v.num_vectors → (v.raw_vector (v.num_vectors - 1)).isSome = true) := by
  refine ⟨⟨fun h => ?_, fun h => ?_⟩, fun h => ?_, fun hpos => ?_⟩
  · by_contra hlt
    push_neg at hlt
    simp [MmapVectors.data_offset, Nat.not_le.mpr hlt] at h
  · simp [MmapVectors.data_offset, h]
  · simp [MmapVectors.data_offset, Nat.not_le.mpr h]
  · have hlt : v.num_vectors - 1 < v.num_vectors := by omega
    have hoff : v.data_offset (v.num_vectors - 1) =
        some ((v.num_vectors - 1) * (v.dim * 4) + HEADER_SIZE) := by
      simp [MmapVectors.data_offset, Nat.not_le.mpr hlt]
    have hbound : (v.num_vectors - 1) * (v.dim * 4) + HEADER_SIZE + v.raw_size ≤
        v.mmap.length := by
      have h2 : v.num_vectors - 1 + 1 = v.num_vectors := Nat.succ_pred_eq_of_pos hpos
      have h1 : (v.num_vectors - 1) * (v.dim * 4) + v.dim * 4 =
          v.num_vectors * (v.dim * 4) := by
        calc (v.num_vectors - 1) * (v.dim * 4) + v.dim * 4
            = (v.num_vectors - 1 + 1) * (v.dim * 4) := by ring
          _ = v.num_vectors * (v.dim * 4) := by rw [h2]
      unfold MmapVectors.raw_size
      omega
    simp [MmapVectors.raw_vector, hoff, MmapVectors.raw_vector_offset, hbound]

/-- A concrete one-vector store (dim 1, one `f32` row, nothing deleted),
as `open` would produce it from well-formed files. -/
def sampleVectors : MmapVectors :=
  { dim := 1, num_vectors := 1, mmap := [100, 97, 116, 97, 0, 0, 128, 63],
    deleted := [100, 114, 111, 112, 0], deleted_count := 0 }

/-- Witness for `data_offset_spec` at `sampleVectors`, key 0. -/
theorem data_offset_spec_witness :
    (sampleVectors.data_offset 0 = none ↔ sampleVectors.num_vectors ≤ 0) ∧
    (0 < sampleVectors.num_vectors →
      sampleVectors.data_offset 0 = some (0 * (sampleVectors.dim * 4) + HEADER_SIZE)) ∧
    (0 < sampleVectors.num_vectors →
      (sampleVectors.raw_vector (sampleVectors.num_vectors - 1)).isSome = true) :=
  data_offset_spec sampleVectors 0 (by decide)

/-- C8: deleting an in-range key whose deletion byte is still 0 twice in a row
increases `deleted_count` by exactly 1, not 2: the first call flips the byte
0 → 1 and increments the count, the second call leaves the byte and the count
unchanged. -/
theorem delete_twice_increments_once (v : MmapVectors) (key : Nat)
    (hk : key < v.num_vectors)
    (hb : v.deleted[key + HEADER_SIZE]? = some 0) :
    ∃ v2, v.delete key = some v2 ∧
      v2.deleted_count = v.deleted_count + 1 ∧
      v2.deleted[key + HEADER_SIZE]? = some 1 ∧
      v2.delete key = some v2 := by
  have hlen : key + HEADER_SIZE < v.deleted.length := (List.getElem?_eq_some.mp hb).1
  refine ⟨{ v with deleted := v.deleted.set (key + HEADER_SIZE) 1,
                   deleted_count := v.deleted_count + 1 }, ?_, rfl, ?_, ?_⟩
  · simp [MmapVectors.delete, hk, hb]
  · rw [List.getElem?_set_self]
    exact hlen
  · have hone : (v.deleted.set (key + HEADER_SIZE) 1)[key + HEADER_SIZE]? = some 1 := by
      rw [List.getElem?_set_self]
      exact hlen
    simp [MmapVectors.delete, hk, hone]

/-- Witness for `delete_twice_increments_once` at `sampleVectors`, key 0. -/
theorem delete_twice_increments_once_witness :
    ∃ v2, sampleVectors.delete 0 = some v2 ∧
      v2.deleted_count = sampleVectors.deleted_count + 1 ∧
      v2.deleted[0 + HEADER_SIZE]? = some 1 ∧
      v2.delete 0 = some v2 :=
  delete_twice_increments_once sampleVectors 0 (by decide) (by decide)

/-- C10: `delete(key)` for `key ≥ num_vectors` returns `Ok(())` and changes
nothing: the deletion map and `deleted_count` stay as they were, and no panic
occurs (the out-of-range branch is a silent no-op). -/
theorem delete_out_of_range_noop (v : MmapVectors) (key : Nat)
    (hk : v.num_vectors ≤ key) : v.delete key = some v := by
  simp [MmapVectors.delete, Nat.not_lt.mpr hk]

/-- Witness for `delete_out_of_range_noop` at `sampleVectors`, key 7. -/
theorem delete_out_of_range_noop_witness :
    sampleVectors.delete 7 = some sampleVectors :=
  delete_out_of_range_noop sampleVectors 7 (by decide)

/-- C5 counterexample: both files exist with contents `[0,0,0,0]`, whose first
4 bytes match neither `b"data"` nor `b"drop"`, yet `open` returns `Ok` (not a
`ServiceError`): the source never inspects the header bytes of existing files;
it only writes the magic when creating a missing file. -/
theorem open_wrong_magic_is_accepted :
    ([0, 0, 0, 0] : List Nat).take 4 ≠ VECTORS_HEADER ∧
    ([0, 0, 0, 0] : List Nat).take 4 ≠ DELETED_HEADER ∧
    mmapOpen (some [0, 0, 0, 0]) (some [0, 0, 0, 0]) 1 =
      Except.ok { dim := 1, num_vectors := 0, mmap := [0, 0, 0, 0],
                  deleted := [0, 0, 0, 0], deleted_count := 0 } := by
  refine ⟨by decide, by decide, rfl⟩

/-- C5 amended: for any existing pair of files (length ≥ HEADER_SIZE, dim > 0),
`open` succeeds whatever their leading bytes are; a magic-header mismatch is
not detected and no `ServiceError` is produced. -/
theorem open_accepts_any_existing_contents (vf df : List Nat) (dim : Nat)
    (hdim : 0 < dim) (hvf : HEADER_SIZE ≤ vf.length) (hdf : HEADER_SIZE ≤ df.length) :
    mmapOpen (some vf) (some df) dim =
      Except.ok { dim := dim, num_vectors := (vf.length - HEADER_SIZE) / dim / 4,
                  mmap := vf, deleted := df,
                  deleted_count := (df.drop HEADER_SIZE).sum } := rfl

/-- Witness for `open_accepts_any_existing_contents` on concrete non-magic files. -/
theorem open_accepts_any_existing_contents_witness :
    mmapOpen (some [1, 2, 3, 4, 5, 6, 7, 8]) (some [9, 9, 9, 9]) 1 =
      Except.ok { dim := 1,
                  num_vectors := (([1, 2, 3, 4, 5, 6, 7, 8] : List Nat).length - HEADER_SIZE) / 1 / 4,
                  mmap := [1, 2, 3, 4, 5, 6, 7, 8], deleted := [9, 9, 9, 9],
                  deleted_count := (([9, 9, 9, 9] : List Nat).drop HEADER_SIZE).sum } :=
  open_accepts_any_existing_contents [1, 2, 3, 4, 5, 6, 7, 8] [9, 9, 9, 9] 1
    (by decide) (by decide) (by decide)

end MmapModel

namespace OpsModel

/-- Rust `PointIdType` (defined in segment/src/types.rs, which is not under src/;
claims treat point ids as opaque comparable values — modelled as `Nat`). -/
abbrev PointIdType := Nat

/-- Stand-in for `segment::types::Filter` (not under src/; no claim inspects
its structure, only propagation and equality matter). -/
structure Filter where
  raw : Nat
deriving DecidableEq, Repr

/-- Stand-in for `segment::types::Payload` (opaque to all claims). -/
structure Payload where
  raw : Nat
deriving DecidableEq, Repr

abbrev PayloadKeyType := String

/-- Rust `DeletePayload` from collection/src/operations/payload_ops.rs. -/
structure DeletePayload where
  keys : List PayloadKeyType
  points : List PointIdType
deriving DecidableEq, Repr

/-- Rust `PayloadOps` from payload_ops.rs: five variants, two of them
filter-selected. -/
inductive PayloadOps where
  | SetPayload (points : List PointIdType) (payload : Payload)
  | SetPayloadByFilter (filter : Filter) (payload : Payload)
  | DeletePayload (op : DeletePayload)
  | ClearPayload (points : List PointIdType)
  | ClearPayloadByFilter (filter : Filter)
deriving DecidableEq, Repr

/-- Rust `PayloadOps::is_write_operation` from payload_ops.rs. -/
def PayloadOps.is_write_operation : PayloadOps → Bool
  | .SetPayload _ _ => true
  | .SetPayloadByFilter _ _ => true
  | .DeletePayload _ => false
  | .ClearPayload _ => false
  | .ClearPayloadByFilter _ => false

/-- A point record as consumed by the effect-area estimator (`x.id` is the
only field it reads from `PointStruct`). -/
structure PointStruct where
  id : PointIdType
deriving DecidableEq, Repr

/-- Rust `PointInsertOperations` (point_ops.rs is not under src/; variants and the
fields used are exactly those matched in operation_effect.rs: a batch carries
`ids`, a list carries point structs). -/
inductive PointInsertOperations where
  | PointsBatch (ids : List PointIdType)
  | PointsList (points : List PointStruct)
deriving DecidableEq, Repr

/-- Rust `PointOperations` (point_ops.rs is not under src/; variants as matched in
operation_effect.rs). -/
inductive PointOperations where
  | UpsertPoints (op : PointInsertOperations)
  | DeletePoints (ids : List PointIdType)
  | DeletePointsByFilter (filter : Filter)
  | SyncPoints (points : List PointStruct)
deriving DecidableEq, Repr

/-- Field-index operations (not under src/; the estimator ignores their
payload entirely). -/
inductive FieldIndexOperations where
  | CreateIndex (field_name : PayloadKeyType)
  | DeleteIndex (field_name : PayloadKeyType)
deriving DecidableEq, Repr

/-- Rust `CollectionUpdateOperations` (operations/mod.rs is not under src/; the
three families are the ones matched in operation_effect.rs). -/
inductive CollectionUpdateOperations where
  | PointOperation (op : PointOperations)
  | PayloadOperation (op : PayloadOps)
  | FieldIndexOperation (op : FieldIndexOperations)
deriving DecidableEq, Repr

/-- Rust `OperationEffectArea` from operation_effect.rs. -/
inductive OperationEffectArea where
  | Empty
  | Points (ids : List PointIdType)
  | Filter (filter : Filter)
deriving DecidableEq, Repr

/-- Rust `EstimateOperationEffectArea for PointInsertOperations`. -/
def PointInsertOperations.estimate_effect_area :
    PointInsertOperations → OperationEffectArea
  | .PointsBatch ids => .Points ids
  | .PointsList points => .Points (points.map PointStruct.id)

/-- Rust `EstimateOperationEffectArea for PointOperations`. The `SyncPoints` arm
first hits `debug_assert!(false, ...)`: a release build continues and returns
the id list (modelled here); a debug build would panic. -/
def PointOperations.estimate_effect_area : PointOperations → OperationEffectArea
  | .UpsertPoints op => op.estimate_effect_area
  | .DeletePoints ids => .Points ids
  | .DeletePointsByFilter filter => .Filter filter
  | .SyncPoints points => .Points (points.map PointStruct.id)

/-- Rust `EstimateOperationEffectArea for PayloadOps` from operation_effect.rs.
The source `match` covers only four of the five `PayloadOps` variants: there
is no arm for `SetPayloadByFilter`, so the match is non-exhaustive over the
enum defined in payload_ops.rs and the two files do not compile together;
`none` models the missing arm. The `SetPayload` and `DeletePayload` arms read
the `points` list of the operation. -/
def PayloadOps.estimate_effect_area : PayloadOps → Option OperationEffectArea
  | .SetPayload points _ => some (.Points points)
  | .SetPayloadByFilter _ _ => none
  | .DeletePayload op => some (.Points op.points)
  | .ClearPayload points => some (.Points points)
  | .ClearPayloadByFilter filter => some (.Filter filter)

/-- Rust `EstimateOperationEffectArea for CollectionUpdateOperations`. -/
def CollectionUpdateOperations.estimate_effect_area :
    CollectionUpdateOperations → Option OperationEffectArea
  | .PointOperation op => some op.estimate_effect_area
  | .PayloadOperation op => op.estimate_effect_area
  | .FieldIndexOperation _ => some .Empty

/-- C4: the estimator behaves as claimed on every variant except the
filter-selected `SetPayloadByFilter`, for which the source `match` simply has
no arm (non-exhaustive, a compile error against the enum in payload_ops.rs):
evaluation at that failing input yields no effect area at all, where the claim
— matching the evident intent, cf. the `ClearPayloadByFilter` arm and
`split_by_shard` which sends `SetPayloadByFilter` to all shards — expects
`Filter` carrying the filter of the operation. -/
theorem estimate_effect_area_missing_set_payload_by_filter :
    CollectionUpdateOperations.estimate_effect_area
      (.PayloadOperation (.SetPayloadByFilter ⟨7⟩ ⟨0⟩)) = none ∧
    CollectionUpdateOperations.estimate_effect_area
      (.PayloadOperation (.ClearPayloadByFilter ⟨7⟩)) = some (.Filter ⟨7⟩) ∧
    CollectionUpdateOperations.estimate_effect_area
      (.PointOperation (.DeletePointsByFilter ⟨7⟩)) = some (.Filter ⟨7⟩) ∧
    CollectionUpdateOperations.estimate_effect_area
      (.PointOperation (.DeletePoints [1, 2, 3])) = some (.Points [1, 2, 3]) ∧
    CollectionUpdateOperations.estimate_effect_area
      (.PayloadOperation (.ClearPayload [4, 5])) = some (.Points [4, 5]) ∧
    CollectionUpdateOperations.estimate_effect_area
      (.FieldIndexOperation (.CreateIndex "field")) = some .Empty :=
  ⟨rfl, rfl, rfl, rfl, rfl, rfl⟩

end OpsModel

/-- Rust `StorageError` (content_manager/errors.rs is not under src/): the variants
constructed or matched by the sources under src/ (`ServiceError`, `BadInput`,
`Locked`, `BadRequest`) plus `NotFound` from the error taxonomy of the spec for
missing collections. -/
inductive StorageError where
  | ServiceError (description : String)
  | BadInput (description : String)
  | NotFound (description : String)
  | BadRequest (description : String)
  | Locked (description : String)
deriving DecidableEq, Repr

namespace TocModel

/-- Rust `DEFAULT_WRITE_LOCK_ERROR_MESSAGE` from storage/src/content_manager/toc.rs. -/
def DEFAULT_WRITE_LOCK_ERROR_MESSAGE : String := "Write operations are forbidden"

/-- Rust `CollectionParams` (collection/src/config.rs is not under src/): the
fields `TableOfContent::create_collection` populates. The three factors are
`NonZeroU32` in Rust; here they are `Nat` whose positivity is established by
the `NonZeroU32::new` checks in `create_collection`. -/
structure CollectionParams where
  shard_number : Nat
  replication_factor : Nat
  write_consistency_factor : Nat
  on_disk_payload : Bool
deriving DecidableEq, Repr

/-- The parts of `TableOfContent` (toc.rs) that the settled claims observe:
the catalog (collection name → collection, each collection abstracted to its
stored params), the alias store, the on-disk collections directory, and the
process-wide write gate (`is_write_locked` + `lock_error_message`). Runtimes,
the channel service and the consensus proposal sender are not modelled. -/
structure TableOfContent where
  collections : List (String × CollectionParams)
  aliases : List (String × String)
  collection_dirs : List String
  is_write_locked : Bool
  lock_error_message : Option String
deriving DecidableEq, Repr

/-- Rust `TableOfContent::set_locks`. -/
def TableOfContent.set_locks (toc : TableOfContent) (is_write_locked : Bool)
    (error_message : Option String) : TableOfContent :=
  { toc with is_write_locked := is_write_locked,
             lock_error_message := error_message }

/-- Rust `TableOfContent::check_write_lock`: errors with `Locked` (carrying the
configured message or the default) exactly when the gate is engaged. -/
def TableOfContent.check_write_lock (toc : TableOfContent) :
    Except StorageError Unit :=
  if toc.is_write_locked then
    Except.error (StorageError.Locked
      (toc.lock_error_message.getD DEFAULT_WRITE_LOCK_ERROR_MESSAGE))
  else
    Except.ok ()

/-- Rust `TableOfContent::resolve_name`: consult the alias store first, fall back
to the raw name, then validate existence in the catalog (the not-found message
text lives in collections_ops.rs, not under src/). -/
def TableOfContent.resolve_name (toc : TableOfContent) (collection_name : String) :
    Except StorageError String :=
  let resolved_name :=
    match toc.aliases.lookup collection_name with
    | none => collection_name
    | some resolved_alias => resolved_alias
  match toc.collections.lookup resolved_name with
  | some _ => Except.ok resolved_name
  | none =>
    Except.error (StorageError.NotFound
      ("Collection " ++ resolved_name ++ " not found"))

/-- Rust `TableOfContent::update`. The operation type and the collection facade are
abstracted: `is_write_op` is the `is_write_operation()` flag of the operation and
`update_from_peer` / `update_from_client` are the facade calls, given the
whole state so that "no state change" is expressible. Control flow follows the
source: resolve the collection (`get_collection`), then branch on
`shard_selection`; only the `None` path with the write flag set consults
`check_write_lock`. -/
def TableOfContent.update {α β : Type} (toc : TableOfContent)
    (is_write_op : α → Bool)
    (update_from_peer : α → Nat → TableOfContent → TableOfContent × β)
    (update_from_client : α → TableOfContent → TableOfContent × β)
    (collection_name : String) (operation : α) (shard_selection : Option Nat) :
    TableOfContent × Except StorageError β :=
  match toc.resolve_name collection_name with
  | Except.error err => (toc, Except.error err)
  | Except.ok _ =>
    match shard_selection with
    | some shard =>
      let r := update_from_peer operation shard toc
      (r.1, Except.ok r.2)
    | none =>
      if is_write_op operation then
        match toc.check_write_lock with
        | Except.error err => (toc, Except.error err)
        | Except.ok _ =>
          let r := update_from_client operation toc
          (r.1, Except.ok r.2)
      else
        let r := update_from_client operation toc
        (r.1, Except.ok r.2)

/-- The shared shape of the ToC read paths (`search`, `search_batch`,
`scroll`, `count`, `retrieve`, `recommend`): resolve the collection and
delegate; no read consults the write gate. -/
def TableOfContent.search {ρ σ : Type} (toc : TableOfContent)
    (collection_search : ρ → Option Nat → σ) (collection_name : String)
    (request : ρ) (shard_selection : Option Nat) : Except StorageError σ :=
  match toc.resolve_name collection_name with
  | Except.error err => Except.error err
  | Except.ok _ => Except.ok (collection_search request shard_selection)

/-- C3: with the gate engaged, a client update (`shard_selection = None`)
whose operation has the write flag set is rejected with `Locked` and the
state is returned unchanged, whatever the collection update function would
have done; a P2P-originated update (`shard_selection = Some shard`) never
consults the gate and is forwarded to `update_from_peer` as-is; reads are
invariant under `set_locks`, i.e. never consult the gate. -/
theorem update_write_gate {α β ρ σ : Type} (toc : TableOfContent)
    (is_write_op : α → Bool)
    (update_from_peer : α → Nat → TableOfContent → TableOfContent × β)
    (update_from_client : α → TableOfContent → TableOfContent × β)
    (collection_search : ρ → Option Nat → σ)
    (name resolved : String) (operation : α) (request : ρ)
    (hres : toc.resolve_name name = Except.ok resolved) :
    (toc.is_write_locked = true → is_write_op operation = true →
      toc.update is_write_op update_from_peer update_from_client name operation none =
        (toc, Except.error (StorageError.Locked
          (toc.lock_error_message.getD DEFAULT_WRITE_LOCK_ERROR_MESSAGE)))) ∧
    (∀ shard : Nat,
      toc.update is_write_op update_from_peer update_from_client name operation
          (some shard) =
        ((update_from_peer operation shard toc).1,
          Except.ok (update_from_peer operation shard toc).2)) ∧
    (∀ (locked : Bool) (msg : Option String) (sel : Option Nat),
      (toc.set_locks locked msg).search collection_search name request sel =
        toc.search collection_search name request sel) := by
  refine ⟨fun hlock hw => ?_, fun shard => ?_, fun locked msg sel => ?_⟩
  · simp [TableOfContent.update, hres, hw, TableOfContent.check_write_lock, hlock]
  · simp [TableOfContent.update, hres]
  · rfl

end TocModel

namespace TocModel

/-- A concrete catalog with one collection "test" (aliased) and the write gate
engaged, used to witness the gate theorems. -/
def sampleToc : TableOfContent :=
  { collections := [("test",
      { shard_number := 1, replication_factor := 1,
        write_consistency_factor := 1, on_disk_payload := false })],
    aliases := [("test_alias", "test")],
    collection_dirs := ["test"],
    is_write_locked := true,
    lock_error_message := none }

/-- Witness for `update_write_gate`: on `sampleToc` (gate engaged) a
`SetPayload` client write is rejected with `Locked`, while the same operation
with a P2P shard selection goes through to `update_from_peer`. -/
theorem update_write_gate_witness :
    (sampleToc.update OpsModel.PayloadOps.is_write_operation
        (fun _ _ t => (t, (0 : Nat))) (fun _ t => (t, (0 : Nat))) "test"
        (OpsModel.PayloadOps.SetPayload [1] ⟨0⟩) none =
      (sampleToc, Except.error (StorageError.Locked
        (sampleToc.lock_error_message.getD DEFAULT_WRITE_LOCK_ERROR_MESSAGE)))) ∧
    (sampleToc.update OpsModel.PayloadOps.is_write_operation
        (fun _ _ t => (t, (0 : Nat))) (fun _ t => (t, (0 : Nat))) "test"
        (OpsModel.PayloadOps.SetPayload [1] ⟨0⟩) (some 3) =
      (sampleToc, Except.ok 0)) := by
  have h := update_write_gate sampleToc OpsModel.PayloadOps.is_write_operation
    (fun _ _ t => (t, (0 : Nat))) (fun _ t => (t, (0 : Nat)))
    (fun (_ : Nat) (_ : Option Nat) => (0 : Nat)) "test" "test"
    (OpsModel.PayloadOps.SetPayload [1] ⟨0⟩) 0 rfl
  exact ⟨h.1 rfl rfl, h.2.1 3⟩

/-- Rust `default_replication_factor` (collection/src/config.rs, not under src/;
"Default is 1" per the `CreateCollection` doc comments). -/
def default_replication_factor : Nat := 1

/-- Rust `default_write_consistency_factor` (ditto, default 1). -/
def default_write_consistency_factor : Nat := 1

/-- Rust `CreateCollection` from collection_meta_ops.rs, restricted to the fields
that drive catalog state; the vector/hnsw/wal/optimizer configs are opaque to
every claim and are omitted. -/
structure CreateCollection where
  shard_number : Option Nat
  replication_factor : Option Nat
  write_consistency_factor : Option Nat
  on_disk_payload : Option Bool
deriving DecidableEq, Repr

/-- Rust `TableOfContent::create_collection` from toc.rs. `dist_shard_count` is
`collection_shard_distribution.shard_count()` and `storage_on_disk_payload`
is `storage_config.on_disk_payload`. As in the source, the collection
directory is created (recorded in `collection_dirs`) before the `NonZeroU32`
parameter checks run; directory/collection I/O itself is abstracted as
successful, and the trailing per-shard `SetShardReplicaState(Active)`
proposals do not touch the catalog and are not modelled. The second
`validate_collection_not_exists` under the write lock coincides with the
first in this sequential model. -/
def TableOfContent.create_collection (toc : TableOfContent)
    (collection_name : String) (operation : CreateCollection)
    (dist_shard_count : Nat) (storage_on_disk_payload : Bool) :
    TableOfContent × Except StorageError Bool :=
  if (toc.collections.lookup collection_name).isSome then
    (toc, Except.error (StorageError.BadInput
      ("Collection " ++ collection_name ++ " already exists")))
  else
    let toc1 := { toc with collection_dirs := collection_name :: toc.collection_dirs }
    let replication_factor :=
      operation.replication_factor.getD default_replication_factor
    let write_consistency_factor :=
      operation.write_consistency_factor.getD default_write_consistency_factor
    if dist_shard_count = 0 then
      (toc1, Except.error (StorageError.BadInput "shard_number cannot be 0"))
    else if replication_factor = 0 then
      (toc1, Except.error (StorageError.BadInput "replication_factor cannot be 0"))
    else if write_consistency_factor = 0 then
      (toc1, Except.error (StorageError.BadInput "write_consistency_factor cannot be 0"))
    else
      let params : CollectionParams :=
        { shard_number := dist_shard_count,
          replication_factor := replication_factor,
          write_consistency_factor := write_consistency_factor,
          on_disk_payload := operation.on_disk_payload.getD storage_on_disk_payload }
      ({ toc1 with collections := (collection_name, params) :: toc1.collections },
        Except.ok true)

/-- The empty catalog. -/
def emptyToc : TableOfContent :=
  { collections := [], aliases := [], collection_dirs := [],
    is_write_locked := false, lock_error_message := none }

/-- C6 counterexample: on an empty catalog, a request with
`replication_factor = 1` and `write_consistency_factor = 3` is accepted, and
the stored parameters violate `write_consistency_factor ≤ replication_factor`
— no such check exists anywhere in the source. -/
theorem create_collection_wcf_gt_rf_accepted :
    (emptyToc.create_collection "test"
        { shard_number := some 1, replication_factor := some 1,
          write_consistency_factor := some 3, on_disk_payload := none }
        1 false).2 = Except.ok true ∧
    (emptyToc.create_collection "test"
        { shard_number := some 1, replication_factor := some 1,
          write_consistency_factor := some 3, on_disk_payload := none }
        1 false).1.collections.lookup "test" =
      some { shard_number := 1, replication_factor := 1,
             write_consistency_factor := 3, on_disk_payload := false } ∧
    ¬ (3 ≤ 1) := by
  refine ⟨rfl, rfl, by omega⟩

/-- C6 amended: every successfully created collection has shard count ≥ 1,
replication factor ≥ 1 and write-consistency factor ≥ 1 (each zero value is
rejected with `BadInput`, leaving the catalog unchanged — though the
collection directory has already been created); the bound
`write_consistency_factor ≤ replication_factor` is not enforced. -/
theorem create_collection_invariants (toc : TableOfContent) (name : String)
    (operation : CreateCollection) (dist_shard_count : Nat) (sod : Bool) :
    (∀ toc2 r,
      toc.create_collection name operation dist_shard_count sod =
        (toc2, Except.ok r) →
      ∃ params, toc2.collections.lookup name = some params ∧
        1 ≤ params.shard_number ∧ 1 ≤ params.replication_factor ∧
        1 ≤ params.write_consistency_factor) ∧
    (∀ toc2 err,
      toc.create_collection name operation dist_shard_count sod =
        (toc2, Except.error err) →
      toc2.collections = toc.collections) := by
  unfold TableOfContent.create_collection
  by_cases hex : (toc.collections.lookup name).isSome
  · rw [if_pos hex]
    exact ⟨fun toc2 r h => by simp at h, fun toc2 err h => by
      rw [Prod.mk.injEq] at h
      rw [← h.1]⟩
  · rw [if_neg hex]
    dsimp only
    by_cases h0 : dist_shard_count = 0
    · rw [if_pos h0]
      exact ⟨fun toc2 r h => by simp at h, fun toc2 err h => by
        rw [Prod.mk.injEq] at h
        rw [← h.1]⟩
    · rw [if_neg h0]
      by_cases h1 : operation.replication_factor.getD default_replication_factor = 0
      · rw [if_pos h1]
        exact ⟨fun toc2 r h => by simp at h, fun toc2 err h => by
          rw [Prod.mk.injEq] at h
          rw [← h.1]⟩
      · rw [if_neg h1]
        by_cases h2 :
            operation.write_consistency_factor.getD default_write_consistency_factor = 0
        · rw [if_pos h2]
          exact ⟨fun toc2 r h => by simp at h, fun toc2 err h => by
            rw [Prod.mk.injEq] at h
            rw [← h.1]⟩
        · rw [if_neg h2]
          refine ⟨fun toc2 r h => ?_, fun toc2 err h => by simp at h⟩
          rw [Prod.mk.injEq] at h
          obtain ⟨ht, hr⟩ := h
          subst ht
          refine ⟨{ shard_number := dist_shard_count,
                    replication_factor :=
                      operation.replication_factor.getD default_replication_factor,
                    write_consistency_factor :=
                      operation.write_consistency_factor.getD default_write_consistency_factor,
                    on_disk_payload := operation.on_disk_payload.getD sod },
                  ?_, by dsimp only; omega, by dsimp only; omega, by dsimp only; omega⟩
          simp [List.lookup]

/-- Witness for `create_collection_invariants`: creating "w" with two shards
and default factors on the empty catalog stores params satisfying the bounds. -/
theorem create_collection_invariants_witness :
    ∃ params,
      (emptyToc.create_collection "w"
          { shard_number := some 2, replication_factor := none,
            write_consistency_factor := none, on_disk_payload := none }
          2 true).1.collections.lookup "w" = some params ∧
      1 ≤ params.shard_number ∧ 1 ≤ params.replication_factor ∧
      1 ≤ params.write_consistency_factor :=
  (create_collection_invariants emptyToc "w"
      { shard_number := some 2, replication_factor := none,
        write_consistency_factor := none, on_disk_payload := none }
      2 true).1
    (emptyToc.create_collection "w"
        { shard_number := some 2, replication_factor := none,
          write_consistency_factor := none, on_disk_payload := none }
        2 true).1
    true rfl

/-- Rust `TableOfContent::delete_collection` from toc.rs: when the name is in the
catalog, remove it under the write lock, run `before_drop` (no catalog-visible
effect), then `remove_dir_all` — whose outcome `rm_ok` abstracts; a removal
failure after the catalog update is a `ServiceError`. An absent name returns
`Ok(false)` with nothing touched. The `HashMap::remove` is modelled as
filtering the association list by key. -/
def TableOfContent.delete_collection (toc : TableOfContent)
    (collection_name : String) (rm_ok : Bool) :
    TableOfContent × Except StorageError Bool :=
  match toc.collections.lookup collection_name with
  | some _ =>
    let toc1 := { toc with
      collections := toc.collections.filter (fun p => p.1 != collection_name) }
    if rm_ok then
      ({ toc1 with
          collection_dirs := toc1.collection_dirs.filter (fun d => d != collection_name) },
        Except.ok true)
    else
      (toc1, Except.error (StorageError.ServiceError
        ("Cannot delete collection " ++ collection_name)))
  | none => (toc, Except.ok false)

/-- Filtering out a key makes later lookups of that key fail. -/
theorem lookup_filter_ne_self (l : List (String × CollectionParams)) (name : String) :
    (l.filter (fun p => p.1 != name)).lookup name = none := by
  induction l with
  | nil => rfl
  | cons hd tl ih =>
    rcases hd with ⟨k, v⟩
    by_cases hk : k = name
    · subst hk
      simp [List.filter_cons, ih]
    · have hbk : (name == k) = false := by
        simp only [beq_eq_false_iff_ne, ne_eq]
        exact fun hcon => hk hcon.symm
      have hkeep : (k != name) = true := by
        simp only [bne_iff_ne, ne_eq]
        exact hk
      simp [List.filter_cons, hkeep, List.lookup, hbk, ih]

/-- C9: `delete_collection` on an absent name returns `Ok(false)` — no error —
and both the catalog and the on-disk collections directory are untouched
(the state comes back identical); `Ok(true)` is returned only when the
collection was present, and then it is gone from the catalog. -/
theorem delete_collection_spec (toc : TableOfContent) (name : String) (rm_ok : Bool) :
    (toc.collections.lookup name = none →
      toc.delete_collection name rm_ok = (toc, Except.ok false)) ∧
    (∀ toc2, toc.delete_collection name rm_ok = (toc2, Except.ok true) →
      (toc.collections.lookup name).isSome = true ∧
      toc2.collections.lookup name = none) := by
  constructor
  · intro habs
    simp [TableOfContent.delete_collection, habs]
  · intro toc2 h
    unfold TableOfContent.delete_collection at h
    split at h
    next p heq =>
      refine ⟨by rw [heq]; rfl, ?_⟩
      dsimp only at h
      split at h
      · rw [Prod.mk.injEq] at h
        rw [← h.1]
        exact lookup_filter_ne_self toc.collections name
      · simp at h
    next heq =>
      simp at h

/-- Witness for `delete_collection_spec` on `sampleToc`: deleting "absent" is
an `Ok(false)` no-op; deleting "test" returns `Ok(true)` and removes it. -/
theorem delete_collection_spec_witness :
    (sampleToc.delete_collection "absent" true = (sampleToc, Except.ok false)) ∧
    ((sampleToc.collections.lookup "test").isSome = true ∧
      (sampleToc.delete_collection "test" true).1.collections.lookup "test" = none) :=
  ⟨(delete_collection_spec sampleToc "absent" true).1 rfl,
   (delete_collection_spec sampleToc "test" true).2
     (sampleToc.delete_collection "test" true).1 rfl⟩

end TocModel

namespace ConsensusModel

/-- Raft entry types as the apply loop distinguishes them: `EntryNormal`,
`EntryConfChangeV2`, and `Other` for the remaining eraftpb variants, which the
loop rejects as unsupported. -/
inductive EntryType where
  | Normal
  | ConfChangeV2
  | Other
deriving DecidableEq, Repr

/-- Raft `Entry` as read by the apply loop: index, type and payload bytes
(empty `data` marks the leader no-op entry). -/
structure Entry where
  index : Nat
  ty : EntryType
  data : List Nat
deriving DecidableEq, Repr

/-- Decoded `ConsensusOperations` value (consensus_ops.rs is not under src/):
either a boxed `CollectionMeta` operation — the meta-operation type stays
abstract — or one of the legacy peer operations (AddPeer / RemovePeer), which
`apply_normal_entry` no longer expects as normal entries. -/
inductive ConsensusOp (μ : Type) where
  | CollectionMeta (op : μ)
  | LegacyPeerOp
deriving DecidableEq, Repr

/-- Environment of the apply loop: the WAL (`entry(idx)`, with `none` for a
read error), entry decoding (`entry.try_into()`), the ToC dispatch
(`toc.perform_collection_meta_op`) and the conf-change handler
(`apply_conf_change_entry`, abstracted). The one-shot apply notifiers are
observation channels that do not influence control flow and are not modelled;
persistence of the applied-progress queue is abstracted as successful. -/
structure ApplyEnv (μ : Type) where
  wal : Nat → Option Entry
  decode : List Nat → Except StorageError (ConsensusOp μ)
  perform_meta : μ → Except StorageError Bool
  apply_conf : Entry → Except StorageError Bool

/-- Modelled from the spec: `EntryApplyProgressQueue` (entry_queue.rs is not
under src/) — a range `[next, last]` of committed-but-not-yet-applied entry
indices; `current` yields `next` while `next ≤ last`, `applied` advances
`next`. This matches the unit test in consensus_state.rs: `new(0,2)` has
`current = Some 0` and `len = 3`, and three `applied()` calls empty it. -/
structure EntryApplyProgressQueue where
  next : Nat
  last : Nat
deriving DecidableEq, Repr

/-- Head of the applied-progress queue (`current_unapplied_entry`). -/
def EntryApplyProgressQueue.current (q : EntryApplyProgressQueue) : Option Nat :=
  if q.next ≤ q.last then some q.next else none

/-- Advance past the applied entry (`entry_applied`). -/
def EntryApplyProgressQueue.applied (q : EntryApplyProgressQueue) :
    EntryApplyProgressQueue :=
  { q with next := q.next + 1 }

/-- Number of unapplied entries. -/
def EntryApplyProgressQueue.len (q : EntryApplyProgressQueue) : Nat :=
  q.last + 1 - q.next

/-- Rust `ConsensusState::apply_normal_entry`: decode the entry; dispatch a
`CollectionMeta` operation to the ToC; a legacy peer operation only trips a
`debug_assert` and returns `Ok(false)` in release builds. The waiter
notification that follows does not alter the returned result. -/
def applyNormalEntry {μ : Type} (env : ApplyEnv μ) (e : Entry) :
    Except StorageError Bool :=
  match env.decode e.data with
  | Except.error err => Except.error err
  | Except.ok (ConsensusOp.CollectionMeta op) => env.perform_meta op
  | Except.ok ConsensusOp.LegacyPeerOp => Except.ok false

/-- The per-entry stop decision of the loop body in
`ConsensusState::apply_entries`: empty data is the leader no-op (continue); a
`Normal` entry stops exactly on `StorageError::ServiceError` (a user-class
error is logged and treated as applied); a conf-change entry stops on its own
stop flag or on any error; an unsupported entry type stops. -/
def entryStop {μ : Type} (env : ApplyEnv μ) (e : Entry) : Bool :=
  if e.data = [] then false
  else
    match e.ty with
    | EntryType.Normal =>
      match applyNormalEntry env e with
      | Except.ok _ => false
      | Except.error (StorageError.ServiceError _) => true
      | Except.error _ => false
    | EntryType.ConfChangeV2 =>
      match env.apply_conf e with
      | Except.ok stop => stop
      | Except.error _ => true
    | EntryType.Other => true

/-- Rust `ConsensusState::apply_entries`: drain the applied-progress queue;
a WAL read failure breaks the loop (`false`); a stopping entry returns `true`
immediately WITHOUT marking the entry applied; otherwise the entry is marked
applied (`entry_applied`, queue advanced) and the loop continues. The initial
`save_if_dirty` and the queue persistence are abstracted as successful.
Returns the stop flag and the final queue. -/
def applyEntries {μ : Type} (env : ApplyEnv μ) (q : EntryApplyProgressQueue) :
    Bool × EntryApplyProgressQueue :=
  if h : q.next ≤ q.last then
    match env.wal q.next with
    | none => (false, q)
    | some e =>
      if entryStop env e then (true, q)
      else applyEntries env q.applied
  else (false, q)
termination_by q.last + 1 - q.next
decreasing_by
  simp only [EntryApplyProgressQueue.applied]
  omega

/-- One unfolding step of `applyEntries` when the head entry is available. -/
theorem applyEntries_step {μ : Type} (env : ApplyEnv μ)
    (q : EntryApplyProgressQueue) (e : Entry)
    (hq : q.next ≤ q.last) (hwal : env.wal q.next = some e) :
    applyEntries env q =
      if entryStop env e then (true, q) else applyEntries env q.applied := by
  rw [applyEntries, dif_pos hq, hwal]

/-- C1: for a committed `Normal` entry at the head of the applied-progress
queue, a `ServiceError` from dispatching the decoded operation makes
`apply_entries` return `true` (halt consensus) immediately with the queue
unchanged — the entry is NOT marked applied; on any other (user-class) error
the entry IS marked applied and the loop continues with the remaining
entries. -/
theorem apply_entries_error_classes {μ : Type} (env : ApplyEnv μ)
    (q : EntryApplyProgressQueue) (e : Entry) (d : String)
    (hq : q.next ≤ q.last) (hwal : env.wal q.next = some e)
    (hty : e.ty = EntryType.Normal) (hdata : e.data ≠ []) :
    (applyNormalEntry env e = Except.error (StorageError.ServiceError d) →
      applyEntries env q = (true, q)) ∧
    (∀ err : StorageError,
      applyNormalEntry env e = Except.error err →
      (∀ descr : String, err ≠ StorageError.ServiceError descr) →
      applyEntries env q = applyEntries env q.applied) := by
  constructor
  · intro herr
    have hstop : entryStop env e = true := by
      simp [entryStop, hdata, hty, herr]
    rw [applyEntries_step env q e hq hwal, if_pos hstop]
  · intro err herr hne
    have hstop : entryStop env e = false := by
      simp only [entryStop, hdata, if_neg, hty, herr]
      cases err with
      | ServiceError s => exact absurd rfl (hne s)
      | BadInput s => simp
      | NotFound s => simp
      | BadRequest s => simp
      | Locked s => simp
    rw [applyEntries_step env q e hq hwal, hstop]
    simp

/-- A concrete normal entry with a non-empty payload. -/
def sampleEntry : Entry := { index := 5, ty := EntryType.Normal, data := [1] }

/-- Environment whose meta dispatch fails with a service error. -/
def sampleEnvService : ApplyEnv Nat :=
  { wal := fun idx => if idx = 5 then some sampleEntry else none,
    decode := fun _ => Except.ok (ConsensusOp.CollectionMeta 0),
    perform_meta := fun _ => Except.error (StorageError.ServiceError "disk full"),
    apply_conf := fun _ => Except.ok false }

/-- Environment whose meta dispatch fails with a user error. -/
def sampleEnvUser : ApplyEnv Nat :=
  { wal := fun idx => if idx = 5 then some sampleEntry else none,
    decode := fun _ => Except.ok (ConsensusOp.CollectionMeta 0),
    perform_meta := fun _ => Except.error (StorageError.BadInput "bad op"),
    apply_conf := fun _ => Except.ok false }

/-- Witness for `apply_entries_error_classes`: with queue `[5, 5]`, the
service-error environment halts with the queue unchanged, while the user-error
environment marks the entry applied and continues. -/
theorem apply_entries_error_classes_witness :
    applyEntries sampleEnvService { next := 5, last := 5 } =
      (true, { next := 5, last := 5 }) ∧
    applyEntries sampleEnvUser { next := 5, last := 5 } =
      applyEntries sampleEnvUser
        (EntryApplyProgressQueue.applied { next := 5, last := 5 }) :=
  ⟨(apply_entries_error_classes sampleEnvService { next := 5, last := 5 }
      sampleEntry "disk full" (by decide) rfl rfl (by simp [sampleEntry])).1 rfl,
   (apply_entries_error_classes sampleEnvUser { next := 5, last := 5 }
      sampleEntry "unused" (by decide) rfl rfl (by simp [sampleEntry])).2
     (StorageError.BadInput "bad op") rfl
     (fun _ h => StorageError.noConfusion h)⟩

end ConsensusModel

namespace SegmentModel

open OpsModel

/-- Modelled from the spec: the concrete `Segment` implementing the
`SegmentEntry` trait of entry_point.rs lives in lib/segment/src/segment.rs,
which is not under src/. Per the DATA MODEL and §4.A, a segment holds a
monotonic `version` (last applied seq_no), a per-point version map and the
point data (named vectors, payload, indexed fields). -/
structure Segment where
  version : Nat
  point_versions : List (PointIdType × Nat)
  vectors : List (PointIdType × List (String × List Nat))
  payloads : List (PointIdType × List (PayloadKeyType × Nat))
  indexed_fields : List PayloadKeyType
deriving DecidableEq, Repr

/-- Rust `SegmentEntry::point_version`. -/
def Segment.point_version (s : Segment) (id : PointIdType) : Option Nat :=
  s.point_versions.lookup id

/-- Replace the binding of `id` in an association list. -/
def setAssoc {β : Type} (l : List (PointIdType × β)) (id : PointIdType) (b : β) :
    List (PointIdType × β) :=
  (id, b) :: l.filter (fun p => p.1 != id)

/-- Modelled from the spec: the common version gate of every point-addressed
mutating operation (§4.A, §8.1) — when the point is known and
`op_num ≤ point_version(id)`, the operation is skipped, state unchanged, and
"no effect" (`false`) is returned; otherwise the mutation `f` runs, the point
version becomes `op_num` and the segment version advances monotonically. -/
def Segment.applyGated (s : Segment) (op_num : Nat) (id : PointIdType)
    (f : Segment → Segment) : Segment × Bool :=
  match s.point_version id with
  | some v =>
    if op_num ≤ v then
      (s, false)
    else
      let s2 := f s
      ({ s2 with version := max s2.version op_num,
                 point_versions := setAssoc s2.point_versions id op_num }, true)
  | none =>
    let s2 := f s
    ({ s2 with version := max s2.version op_num,
               point_versions := setAssoc s2.point_versions id op_num }, true)

/-- Modelled from the spec: `upsert_vector(op_num, point_id, vectors)`. -/
def Segment.upsert_vector (s : Segment) (op_num : Nat) (id : PointIdType)
    (vecs : List (String × List Nat)) : Segment × Bool :=
  s.applyGated op_num id
    (fun s2 => { s2 with vectors := setAssoc s2.vectors id vecs })

/-- Modelled from the spec: `delete_point(op_num, point_id)`. -/
def Segment.delete_point (s : Segment) (op_num : Nat) (id : PointIdType) :
    Segment × Bool :=
  s.applyGated op_num id
    (fun s2 => { s2 with
      vectors := s2.vectors.filter (fun p => p.1 != id),
      payloads := s2.payloads.filter (fun p => p.1 != id) })

/-- Modelled from the spec: `set_payload(op_num, point_id, payload)`. -/
def Segment.set_payload (s : Segment) (op_num : Nat) (id : PointIdType)
    (payload : List (PayloadKeyType × Nat)) : Segment × Bool :=
  s.applyGated op_num id
    (fun s2 => { s2 with payloads := setAssoc s2.payloads id payload })

/-- Modelled from the spec: `delete_payload(op_num, point_id, key)`. -/
def Segment.delete_payload (s : Segment) (op_num : Nat) (id : PointIdType)
    (key : PayloadKeyType) : Segment × Bool :=
  s.applyGated op_num id
    (fun s2 => { s2 with
      payloads := s2.payloads.map
        (fun p => if p.1 = id then (p.1, p.2.filter (fun kv => kv.1 != key)) else p) })

/-- Modelled from the spec: `clear_payload(op_num, point_id)`. -/
def Segment.clear_payload (s : Segment) (op_num : Nat) (id : PointIdType) :
    Segment × Bool :=
  s.applyGated op_num id
    (fun s2 => { s2 with payloads := s2.payloads.filter (fun p => p.1 != id) })

/-- Modelled from the spec: `create_field_index(op_num, key)` — field-index
operations carry no point id; their gate is the segment version (the spec
invariant `point_version(id) ≤ segment.version` makes this at least as strict
as any point gate). -/
def Segment.create_field_index (s : Segment) (op_num : Nat)
    (key : PayloadKeyType) : Segment × Bool :=
  if op_num ≤ s.version then
    (s, false)
  else
    ({ s with version := max s.version op_num,
              indexed_fields := key :: s.indexed_fields.filter (fun k => k != key) },
      true)

/-- Modelled from the spec: `delete_field_index(op_num, key)`. -/
def Segment.delete_field_index (s : Segment) (op_num : Nat)
    (key : PayloadKeyType) : Segment × Bool :=
  if op_num ≤ s.version then
    (s, false)
  else
    ({ s with version := max s.version op_num,
              indexed_fields := s.indexed_fields.filter (fun k => k != key) },
      true)

/-- C2: with `op_num ≤ point_version(id)`, every mutating segment operation
leaves the state unchanged and returns the "no effect" result `false`; with
`op_num ≤ version` the field-index operations do the same; and re-applying
any of the gated operations yields equal state and equal return value. -/
theorem segment_ops_version_gate (s : Segment) (op_num : Nat) (id : PointIdType)
    (v : Nat) (vecs : List (String × List Nat))
    (payload : List (PayloadKeyType × Nat)) (key : PayloadKeyType)
    (hv : s.point_version id = some v) (hle : op_num ≤ v) :
    (s.upsert_vector op_num id vecs = (s, false)) ∧
    (s.delete_point op_num id = (s, false)) ∧
    (s.set_payload op_num id payload = (s, false)) ∧
    (s.delete_payload op_num id key = (s, false)) ∧
    (s.clear_payload op_num id = (s, false)) ∧
    (op_num ≤ s.version → s.create_field_index op_num key = (s, false)) ∧
    (op_num ≤ s.version → s.delete_field_index op_num key = (s, false)) ∧
    ((s.upsert_vector op_num id vecs).1.upsert_vector op_num id vecs =
      s.upsert_vector op_num id vecs) ∧
    ((s.delete_point op_num id).1.delete_point op_num id =
      s.delete_point op_num id) ∧
    ((s.set_payload op_num id payload).1.set_payload op_num id payload =
      s.set_payload op_num id payload) ∧
    ((s.delete_payload op_num id key).1.delete_payload op_num id key =
      s.delete_payload op_num id key) ∧
    ((s.clear_payload op_num id).1.clear_payload op_num id =
      s.clear_payload op_num id) := by
  have hgate : ∀ f, s.applyGated op_num id f = (s, false) := by
    intro f
    simp [Segment.applyGated, hv, hle]
  have hup : s.upsert_vector op_num id vecs = (s, false) := hgate _
  have hdp : s.delete_point op_num id = (s, false) := hgate _
  have hsp : s.set_payload op_num id payload = (s, false) := hgate _
  have hdpl : s.delete_payload op_num id key = (s, false) := hgate _
  have hcp : s.clear_payload op_num id = (s, false) := hgate _
  refine ⟨hup, hdp, hsp, hdpl, hcp, fun hver => ?_, fun hver => ?_, ?_, ?_, ?_, ?_, ?_⟩
  · simp [Segment.create_field_index, hver]
  · simp [Segment.delete_field_index, hver]
  · rw [hup]; exact hup
  · rw [hdp]; exact hdp
  · rw [hsp]; exact hsp
  · rw [hdpl]; exact hdpl
  · rw [hcp]; exact hcp

/-- The segment of spec scenario 2: point 42 upserted at op_num 5. -/
def sampleSegment : Segment :=
  { version := 5, point_versions := [(42, 5)],
    vectors := [(42, [("default", [1, 2, 3, 4])])],
    payloads := [], indexed_fields := [] }

/-- Witness for `segment_ops_version_gate`: `DeletePoint(42)` at `op_num = 3`
on `sampleSegment` (point 42 at version 5) has no effect. -/
theorem segment_ops_version_gate_witness :
    sampleSegment.delete_point 3 42 = (sampleSegment, false) :=
  (segment_ops_version_gate sampleSegment 3 42 5 [] [] "field" rfl
    (by decide)).2.1

end SegmentModel
